import Mathlib

/-
Verification of the mousefox client/server state-synchronization core.

The Python source is shallowly embedded: each `def`/method below is a direct
translation of the named Python function, with Python dicts modelled as
insertion-ordered association lists `List (String × Value)`, Python `None`
modelled as the value `Value.vnone` (so `dict.get` on a missing key yields
`vnone`, exactly as in Python), and Python `hash(...)` digests modelled by
their preimage data (`str` is injective on the hashed values, and `hash` is a
function, so equal data gives equal digests; Python hash collisions could only
turn a "changed" comparison into "unchanged", never the reverse).
-/

namespace Mousefox

/-- Chat message (src/mousefox/examples/chat.py, `Message` dataclass):
username, text and a timestamp (modelled as an integer timestamp). -/
structure Message where
  username : String
  text : String
  time : Int
deriving DecidableEq, Repr

/-- Result of `Message.serialize` (json.dumps of the message fields).
json.dumps is injective on message data, so the serialized string is
modelled by a constructor wrapping the message itself. -/
structure SerializedMessage where
  data : Message
deriving DecidableEq, Repr

/-- Serialize a message (src/mousefox/examples/chat.py, `Message.serialize`). -/
def Message.serialize (m : Message) : SerializedMessage := ⟨m⟩

/-- JSON-representable payload values exchanged on the wire.
`vnone` is Python `None`; `vhash` is the tic-tac-toe state digest
`hash((str(board), str(players), str(x_turn)))` modelled by its preimage;
`vchash` is the chat digest `hash((name, str(sorted(users)), last_time))`
modelled by its preimage; `vmsgs` is a list of serialized chat messages. -/
inductive Value where
  | vnone : Value
  | vstr : String → Value
  | vint : Int → Value
  | vbool : Bool → Value
  | vlist : List String → Value
  | vline : Option (Nat × Nat × Nat) → Value
  | vhash : List String × List String × Bool → Value
  | vchash : String × List String × Int → Value
  | vmsgs : List SerializedMessage → Value
deriving DecidableEq, Repr

/-- Python truthiness of a payload value (`if not x`). Digests (`vhash`,
`vchash`) are nonzero integers in practice and are modelled as truthy. -/
def Value.pyTruthy : Value → Bool
  | .vnone => false
  | .vstr s => decide (s ≠ "")
  | .vint n => decide (n ≠ 0)
  | .vbool b => b
  | .vlist l => !l.isEmpty
  | .vline o => o.isSome
  | .vhash _ => true
  | .vchash _ => true
  | .vmsgs l => !l.isEmpty

/-- A Python dict used as a packet/response payload or client cache:
an insertion-ordered association list. -/
abbrev Payload := List (String × Value)

/-- Python `d.get(k)`: the value at `k`, or `None` when the key is missing. -/
def pyGet (p : Payload) (k : String) : Value :=
  (p.lookup k).getD .vnone

/-- Python `d.get(k, default)`. -/
def pyGetD (p : Payload) (k : String) (d : Value) : Value :=
  (p.lookup k).getD d

/-- An outbound message (pgnet `Packet`): command name, payload, and the
username the server attaches from the session. -/
structure Packet where
  message : String
  payload : Payload := []
  username : String := ""
deriving DecidableEq, Repr

/-- An inbound reply (pgnet `Response`): message, payload and status
(0 = OK, 1 = UNEXPECTED, 2 = BAD). -/
structure Resp where
  message : String
  payload : Payload := []
  status : Nat := 0
deriving DecidableEq, Repr

/- ------------------------------------------------------------------ -/
/- Client-side cache application (src/logic/client.py and the identical
   src/tictactoe/client.py `Client._apply_update`).                    -/
/- ------------------------------------------------------------------ -/

/-- Initial client cache (src/logic/client.py line 20):
`self.game_state = {"state_hash": ""}`. -/
def initCache : Payload := [("state_hash", .vstr "")]

/-- `Client._apply_update` (src/logic/client.py lines 35-45): compare the
response payload's `state_hash` with the cached one; on a match return with
no mutation; otherwise replace the whole cache with the response payload,
log, and call `on_game_state` if one is registered. The second component
counts `on_game_state` invocations; `hasCallback` is whether
`self.on_game_state` is set. -/
def applyUpdate (cache : Payload) (hasCallback : Bool) (response : Resp) :
    Payload × Nat :=
  let server_hash := pyGet response.payload "state_hash"
  if server_hash = pyGet cache "state_hash" then
    (cache, 0)
  else
    let game_state := response.payload
    (game_state, if hasCallback then 1 else 0)

/-- Initial widget state (src/mousefox/examples/tictactoe.py line 226):
`self.game_state = dict(state_hash=None)`. -/
def widgetInitState : Payload := [("state_hash", .vnone)]

/-- `GameWidget.on_heartbeat` of the tic-tac-toe example
(src/mousefox/examples/tictactoe.py lines 230-241): on a hash match return
unchanged; otherwise replace the state wholesale and call `_on_game_state`
only when the new hash is truthy. The second component counts
`_on_game_state` invocations. -/
def widgetOnHeartbeat (game_state : Payload) (response : Resp) :
    Payload × Nat :=
  let server_hash := pyGet response.payload "state_hash"
  if server_hash = pyGet game_state "state_hash" then
    (game_state, 0)
  else
    let new_state := response.payload
    let new_hash := pyGet new_state "state_hash"
    (new_state, if new_hash.pyTruthy then 1 else 0)

/-- `GameWidget.on_heartbeat` of the chat example
(src/mousefox/examples/chat.py lines 127-134): if the server hash is falsy
or equal to ours, return unchanged; otherwise replace `_game_data` wholesale
and refresh once. The second component counts `_refresh_widgets` calls. -/
def chatOnHeartbeat (game_data : Payload) (response : Resp) :
    Payload × Nat :=
  let server_hash := pyGet response.payload "update_hash"
  let our_hash := pyGet game_data "update_hash"
  if server_hash.pyTruthy = false ∨ our_hash = server_hash then
    (game_data, 0)
  else
    (response.payload, 1)

/- ------------------------------------------------------------------ -/
/- Server-side tic-tac-toe game logic (src/logic/game.py).            -/
/- ------------------------------------------------------------------ -/

/-- WINNING_LINES constant (src/logic/game.py lines 8-17). -/
def WINNING_LINES : List (Nat × Nat × Nat) :=
  [(0, 1, 2), (3, 4, 5), (6, 7, 8), (0, 3, 6), (1, 4, 7), (2, 5, 8),
   (0, 4, 8), (2, 4, 6)]

/-- Mutable fields of the tic-tac-toe `Game` (src/logic/game.py `__init__`):
board of 9 marks ("", "O" or "X"), player list, whose turn, outcome text,
and the in-progress flag. -/
structure TGame where
  board : List String
  players : List String
  x_turn : Bool
  outcome : String
  in_progress : Bool
deriving DecidableEq, Repr

/-- A fresh game built from BLANK_DATA (src/logic/game.py lines 18-36):
empty board, no players, X to move, not in progress. -/
def blankGame : TGame :=
  { board := List.replicate 9 "", players := [], x_turn := true,
    outcome := "Waiting for players.", in_progress := false }

/-- `Game.user_joined` (src/logic/game.py lines 55-60): append the player if
new, and once two or more players are present mark the game in progress. -/
def userJoined (g : TGame) (player : String) : TGame :=
  let players := if player ∈ g.players then g.players else g.players ++ [player]
  if players.length ≥ 2 then
    { g with players := players, in_progress := true, outcome := "In progress." }
  else
    { g with players := players }

/-- `Game.user_left` (src/logic/game.py lines 62-64): remove the player only
if it is a spectator (appears in `players[2:]`). -/
def userLeft (g : TGame) (player : String) : TGame :=
  if player ∈ g.players.drop 2 then
    { g with players := g.players.erase player }
  else g

/-- `Game._state_hash` (src/logic/game.py lines 73-81): the digest of
`(str(board), str(players), str(x_turn))`, modelled by its preimage data.
`str` is injective on these values and `hash` is a function, so two states
with equal `stateHashData` have equal Python digests. Note the digest does
NOT cover `in_progress` or `outcome`. -/
def stateHashData (g : TGame) : List String × List String × Bool :=
  (g.board, g.players, g.x_turn)

/-- `Game._current_username` (src/logic/game.py lines 83-87): empty when not
in progress, otherwise `players[int(x_turn)]`. Reachable in-progress states
always have at least two players, so the `getD` default is never hit there. -/
def currentUsername (g : TGame) : String :=
  if g.in_progress = false then ""
  else g.players.getD (if g.x_turn then 1 else 0) ""

/-- `Game._mark_to_username` (src/logic/game.py lines 100-102):
`players[0 if mark == "O" else 1]`. -/
def markToUsername (g : TGame) (mark : String) : String :=
  g.players.getD (if mark = "O" then 0 else 1) ""

/-- `Game._username_to_mark` (src/logic/game.py lines 104-106):
`"O" if username == players[0] else "X"`. -/
def usernameToMark (g : TGame) (username : String) : String :=
  if username = g.players.getD 0 "" then "O" else "X"

/-- First winning line of a board, as scanned by `Game._check_progress`
(src/logic/game.py lines 89-98): the first entry of WINNING_LINES whose
three squares hold the same nonempty mark. -/
def winningLine (board : List String) : Option (Nat × Nat × Nat) :=
  WINNING_LINES.find? fun t =>
    let m := board.getD t.1 ""
    decide (m ≠ "" ∧ m = board.getD t.2.1 "" ∧ m = board.getD t.2.2 "")

/-- `Game._check_progress` (src/logic/game.py lines 89-98): a winning line
ends the game with a win outcome; a full board with no winner is a draw. -/
def checkProgress (g : TGame) : TGame :=
  match winningLine g.board with
  | some line =>
      let mark := g.board.getD line.1 ""
      let winner := markToUsername g mark
      { g with in_progress := false,
               outcome := s!"{winner} playing as {mark} wins!" }
  | none =>
      if g.board.all (fun s => decide (s ≠ "")) then
        { g with in_progress := false, outcome := "Draw." }
      else g

/-- `Game.play_square` body after parsing the square index
(src/logic/game.py lines 123-133): reject when it is not the sender's turn
or the square is marked; otherwise mark the square, flip the turn and run
`_check_progress`. -/
def playSquare (g : TGame) (sender : String) (square : Nat) : TGame × Resp :=
  let username := currentUsername g
  if sender ≠ username then
    (g, { message := "Not your turn.", status := 1 })
  else if g.board.getD square "" ≠ "" then
    (g, { message := "Square is already marked.", status := 1 })
  else
    let g1 := { g with board := g.board.set square (usernameToMark g username),
                       x_turn := !g.x_turn }
    (checkProgress g1, { message := "Marked square." })

/-- `Game._get_user_info` (src/logic/game.py lines 135-143). -/
def getUserInfo (g : TGame) (username : String) : String :=
  if g.in_progress = false then g.outcome
  else
    let current_username := currentUsername g
    if username ∉ g.players.take 2 then
      let mark := usernameToMark g current_username
      g.outcome ++ "\nSpectating " ++ current_username ++ "\x27s turn as " ++ mark
    else
      let turn := if username = current_username then "Your turn" else "Awaiting turn"
      turn ++ ", playing as: " ++ usernameToMark g username

/-- `Game.check_update` (src/logic/game.py lines 109-121): when the packet's
`state_hash` equals the server digest, reply "Up to date." with the digest
alone; otherwise reply "Updated state." with the full snapshot payload. The
returned game is the (unchanged) server state: the method performs no
writes. -/
def checkUpdate (g : TGame) (packet : Packet) : TGame × Resp :=
  let state_hash := stateHashData g
  let client_hash := pyGet packet.payload "state_hash"
  if client_hash = .vhash state_hash then
    (g, { message := "Up to date.", payload := [("state_hash", .vhash state_hash)] })
  else
    let payload : Payload :=
      [("state_hash", .vhash state_hash),
       ("players", .vlist g.players),
       ("board", .vlist g.board),
       ("your_turn", .vbool (decide (packet.username = currentUsername g))),
       ("info", .vstr (getUserInfo g packet.username))]
    (g, { message := "Updated state.", payload := payload })

/-- `Game.handle_packet` (src/logic/game.py lines 66-70) together with the
`commands` table (lines 37-40): dispatch on the message name. For
`play_square`, Python reads `int(packet.payload["square"])` before any
write, so a missing or non-integer value raises with the state unchanged
(modelled by the error branch); a negative integer indexes the 9-square
board from the end. -/
def handlePacket (g : TGame) (packet : Packet) : TGame × Resp :=
  if packet.message = "check_update" then checkUpdate g packet
  else if packet.message = "play_square" then
    match pyGet packet.payload "square" with
    | .vint n =>
        playSquare g packet.username (if n < 0 then (n + 9).toNat else n.toNat)
    | _ => (g, { message := "Bad packet.", status := 2 })
  else (g, { message := "No such command." })

/-- Game states reachable from a fresh game by the operations the server
performs: players joining and leaving, handled `play_square` moves
(square < 9: Python raises on out-of-range reads, leaving state unchanged),
and heartbeat checks. -/
inductive Reachable : TGame → Prop where
  | init : Reachable blankGame
  | joined (g : TGame) (p : String) : Reachable g → Reachable (userJoined g p)
  | left (g : TGame) (p : String) : Reachable g → Reachable (userLeft g p)
  | played (g : TGame) (u : String) (s : Nat) :
      s < 9 → Reachable g → Reachable (playSquare g u s).1
  | checked (g : TGame) (packet : Packet) :
      Reachable g → Reachable (checkUpdate g packet).1

/- ------------------------------------------------------------------ -/
/- Chat room server logic (src/mousefox/examples/chat.py).            -/
/- ------------------------------------------------------------------ -/

/-- Mutable fields of the chat `Game` (src/mousefox/examples/chat.py
`__init__`): room name, the set of users (a Python set, modelled as a
duplicate-free list), and the message log (always nonempty: it starts with
the welcome message). -/
structure ChatGame where
  name : String
  users : List String
  message_log : List Message
deriving DecidableEq, Repr

/-- `Game._update_hash` (src/mousefox/examples/chat.py lines 88-95): the
digest of `(name, str(sorted(users)), message_log[-1].time)`, modelled by
its preimage with the users sorted. The log is nonempty in every state the
server constructs, so the `getD` default for the last timestamp is never
hit there. -/
def chatUpdateHashData (g : ChatGame) : String × List String × Int :=
  (g.name, List.insertionSort (· ≤ ·) g.users,
   ((g.message_log.getLast?).map Message.time).getD 0)

/-- `Game.handle_heartbeat` (src/mousefox/examples/chat.py lines 74-86):
when the packet's `update_hash` (default -1) equals the server digest,
reply "Up to date." with the digest alone; otherwise reply with the digest,
room name, user list and the last 50 messages of the log, serialized
(`message_log[-50:]`, i.e. `drop (length - 50)`). -/
def chatHandleHeartbeat (g : ChatGame) (packet : Packet) : ChatGame × Resp :=
  let update_hash := Value.vchash (chatUpdateHashData g)
  let client_hash := pyGetD packet.payload "update_hash" (.vint (-1))
  if client_hash = update_hash then
    (g, { message := "Up to date.", payload := [("update_hash", update_hash)] })
  else
    let messages :=
      (g.message_log.drop (g.message_log.length - 50)).map Message.serialize
    let payload : Payload :=
      [("update_hash", update_hash),
       ("room_name", .vstr g.name),
       ("users", .vlist g.users),
       ("messages", .vmsgs messages)]
    (g, { message := "Last 50 messages.", payload := payload })

/- ------------------------------------------------------------------ -/
/- Client operations on the cache (src/logic/client.py).              -/
/- ------------------------------------------------------------------ -/

/-- The `check_update` packet built by `Client.check_update`
(src/logic/client.py lines 27-33) from the cached hash. -/
def checkUpdatePacket (cache : Payload) : Packet :=
  { message := "check_update",
    payload := [("state_hash", pyGet cache "state_hash")] }

/-- `Client.check_update` (src/logic/client.py lines 27-33): read the cached
hash, hand the dispatcher a `check_update` packet with `_apply_update` as
callback. The cache itself is only read, never written: the returned cache
is unchanged. -/
def clientCheckUpdate (cache : Payload) : Payload × Packet :=
  (cache, checkUpdatePacket cache)

/-- Client caches reachable in the closed client/server loop: the initial
cache, then any number of `_apply_update` applications to responses that
the server's `Game.check_update` produced (for any server state, any packet
hash, and whether or not an `on_game_state` callback is registered).
`check_update` / `queue_update` only read the cache. -/
inductive CacheReachable : Payload → Prop where
  | init : CacheReachable initCache
  | applied (c : Payload) (cb : Bool) (g : TGame) (packet : Packet) :
      CacheReachable c →
      CacheReachable (applyUpdate c cb (checkUpdate g packet).2).1

/- ------------------------------------------------------------------ -/
/- Heartbeat loop (src/logic/client.py lines 52-56) and the dispatcher
   queue it feeds.                                                     -/
/- ------------------------------------------------------------------ -/

/-- Modelled from the spec: pgnet's dispatcher `send` (an external
dependency, not under src/) enqueues the packet on the outbound queue —
at the front when `do_next` is true, appended otherwise (spec section 4.3);
it transmits queued packets one at a time, so queued packets awaiting
transmission or a response are exactly the queue's contents. -/
def dispatcherSend (queue : List Packet) (packet : Packet) (do_next : Bool) :
    List Packet :=
  if do_next then packet :: queue else queue ++ [packet]

/-- Client-side state visible to the heartbeat loop: connection flag,
current game (if any), the dispatcher's queue of outstanding packets, and
the cache. -/
structure HBState where
  connected : Bool
  game : Option String
  queue : List Packet
  cache : Payload
deriving DecidableEq, Repr

/-- One iteration of `Client._heartbeat` (src/logic/client.py lines 52-56):
after the sleep, if connected and in a game, call `self.check_update()`
(with its default `do_next=True`), which sends a fresh `check_update`
packet via the dispatcher. Nothing in the loop consults whether a previous
check is still outstanding. -/
def heartbeatTick (s : HBState) : HBState :=
  if s.connected && s.game.isSome then
    { s with queue := dispatcherSend s.queue (checkUpdatePacket s.cache) true }
  else s

/-- Number of `check_update` requests sitting in a queue. -/
def pendingChecks (queue : List Packet) : Nat :=
  queue.countP (fun p => decide (p.message = "check_update"))

/- ------------------------------------------------------------------ -/
/- Connection / heartbeat lifecycle (src/logic/client.py lines 47-50). -/
/- ------------------------------------------------------------------ -/

/-- Events of the `async_connect` coroutine. -/
inductive ConnEvent where
  | heartbeatStart : ConnEvent
  | transportConnect : Bool → ConnEvent
  | heartbeatCancel : ConnEvent
deriving DecidableEq, Repr

/-- `Client.async_connect` (src/logic/client.py lines 47-50) as its event
trace: create the heartbeat task, await the transport connect, cancel the
heartbeat task. Modelled from the spec: the awaited
`super().async_connect()` is pgnet code (external, not under src/); per
spec section 7 a failed connect is surfaced via `on_status` and the connect
task ends normally, so the await returns on success and on failure alike
(here `success : Bool`). -/
def asyncConnectTrace (success : Bool) : List ConnEvent :=
  [.heartbeatStart, .transportConnect success, .heartbeatCancel]

/-- Whether the heartbeat task is cancelled (or was never started) after a
trace of connection events runs to completion. -/
def heartbeatCancelled (trace : List ConnEvent) : Bool :=
  trace.foldl
    (fun st e =>
      match e with
      | .heartbeatStart => false
      | .heartbeatCancel => true
      | .transportConnect _ => st)
    true

/- ------------------------------------------------------------------ -/
/- Concrete executions used below.                                     -/
/- ------------------------------------------------------------------ -/

/-- Two players joined a fresh game, which marks it in progress. -/
def gameAB : TGame := userJoined (userJoined blankGame "alice") "bob"

/-- A finished game: with `x_turn = true` the first move is by
`players[1] = "bob"` (mark X); bob takes squares 0, 1, 2 while alice takes
3 and 4, so bob wins on the top row and `_check_progress` ends the game. -/
def gameWon : TGame :=
  (playSquare
    (playSquare
      (playSquare
        (playSquare
          (playSquare gameAB "bob" 0).1 "alice" 3).1 "bob" 1).1 "alice" 4).1
    "bob" 2).1

/-- The finished game after a spectator joins (which flips `in_progress`
back to true and resets `outcome`, since `user_joined` fires whenever two
or more players are present) and immediately leaves (spectators in
`players[2:]` are removed). Board, players and turn flag — everything
`_state_hash` covers — match `gameWon` exactly. -/
def gameRejoined : TGame := userLeft (userJoined gameWon "carol") "carol"

/-- A heartbeat packet from alice whose cached hash is stale (missing), so
the server answers with the full snapshot. -/
def stalePacket : Packet := { message := "check_update", username := "alice" }

/-- A heartbeat response whose payload lacks `state_hash` entirely. -/
def anomalousResp : Resp :=
  { message := "Updated state.", payload := [("players", .vlist [])] }

/-- Heartbeat-loop state with a connection, an active game and one
`check_update` request already outstanding in the dispatcher queue. -/
def hbOutstanding : HBState :=
  { connected := true, game := some "tictactoe", queue := [checkUpdatePacket initCache],
    cache := initCache }

/-- Heartbeat-loop state with a connection and an active game but an empty
dispatcher queue. -/
def hbIdle : HBState :=
  { connected := true, game := some "tictactoe", queue := [], cache := initCache }

/-- A heartbeat packet carrying the fresh game's current digest. -/
def matchPacket : Packet :=
  { message := "check_update",
    payload := [("state_hash", .vhash (stateHashData blankGame))] }

/-- The full-snapshot response the blank server sends for a stale packet. -/
def fullResp : Resp := (checkUpdate blankGame stalePacket).2

/-- An up-to-date response matching the initial client cache sentinel. -/
def matchResp : Resp :=
  { message := "Up to date.", payload := [("state_hash", .vstr "")] }

/-- A small chat room state: the welcome message plus one user message. -/
def chatRoom : ChatGame :=
  { name := "lobby", users := ["alice"],
    message_log := [⟨"admin", "Welcome to lobby chat room", 0⟩,
                    ⟨"alice", "hi", 5⟩] }

/-- A chat heartbeat packet with no `update_hash` (defaults to -1). -/
def chatStalePacket : Packet := { message := "heartbeat", username := "alice" }

/-- First component of `applyUpdate`: the cache either survives unchanged
(hash match) or becomes the response payload (mismatch). -/
theorem applyUpdate_fst (cache : Payload) (cb : Bool) (r : Resp) :
    (applyUpdate cache cb r).1 = cache ∨ (applyUpdate cache cb r).1 = r.payload := by
  by_cases h : pyGet r.payload "state_hash" = pyGet cache "state_hash"
  · exact Or.inl (by simp [applyUpdate, h])
  · exact Or.inr (by simp [applyUpdate, h])

/-- Both branches of the server's `check_update` response carry
`state_hash` as their first payload entry. -/
theorem checkUpdate_payload_has_hash (g : TGame) (packet : Packet) :
    ((checkUpdate g packet).2.payload.lookup "state_hash").isSome = true := by
  by_cases h : pyGet packet.payload "state_hash" = .vhash (stateHashData g)
  · simp [checkUpdate, h, List.lookup]
  · simp [checkUpdate, h, List.lookup]

/- ------------------------------------------------------------------ -/
/- Claim theorems.                                                     -/
/- ------------------------------------------------------------------ -/

/-- C1: when a heartbeat response carries the same `state_hash` as the
client cache, both `Client._apply_update` (src/logic/client.py) and the
tic-tac-toe `GameWidget.on_heartbeat` leave the cached mapping unmodified
and invoke no state-change callback. -/
theorem apply_update_noop_on_match (cache : Payload) (cb : Bool) (r : Resp)
    (h : pyGet r.payload "state_hash" = pyGet cache "state_hash") :
    applyUpdate cache cb r = (cache, 0) ∧
    widgetOnHeartbeat cache r = (cache, 0) := by
  constructor
  · simp [applyUpdate, h]
  · simp [widgetOnHeartbeat, h]

/-- Witness for C1: the up-to-date response matching the initial cache
sentinel is a no-op with no callback. -/
theorem apply_update_noop_on_match_witness :
    applyUpdate initCache true matchResp = (initCache, 0) ∧
    widgetOnHeartbeat initCache matchResp = (initCache, 0) :=
  apply_update_noop_on_match initCache true matchResp (by decide)

/-- C2: the server's `Game.check_update` (src/logic/game.py) replies with
the minimal `{state_hash}` payload exactly when the packet's hash equals
the current digest; otherwise the payload is the full current snapshot
(digest, players, board, your_turn, info), with the new digest stored
under `state_hash`. -/
theorem check_update_payload_contract (g : TGame) (p : Packet) :
    (pyGet p.payload "state_hash" = .vhash (stateHashData g) →
      (checkUpdate g p).2.payload = [("state_hash", .vhash (stateHashData g))]) ∧
    (pyGet p.payload "state_hash" ≠ .vhash (stateHashData g) →
      (checkUpdate g p).2.payload =
        [("state_hash", .vhash (stateHashData g)),
         ("players", .vlist g.players),
         ("board", .vlist g.board),
         ("your_turn", .vbool (decide (p.username = currentUsername g))),
         ("info", .vstr (getUserInfo g p.username))] ∧
      (checkUpdate g p).2.payload.lookup "state_hash" =
        some (.vhash (stateHashData g))) := by
  constructor
  · intro h
    simp [checkUpdate, h]
  · intro h
    refine ⟨by simp [checkUpdate, h], ?_⟩
    simp [checkUpdate, h, List.lookup]

/-- Witness for C2: both branches evaluated on the fresh game, once with a
matching packet and once with a stale one. -/
theorem check_update_payload_contract_witness :
    (checkUpdate blankGame matchPacket).2.payload =
      [("state_hash", .vhash (stateHashData blankGame))] ∧
    (checkUpdate blankGame stalePacket).2.payload =
      [("state_hash", .vhash (stateHashData blankGame)),
       ("players", .vlist blankGame.players),
       ("board", .vlist blankGame.board),
       ("your_turn", .vbool (decide (stalePacket.username = currentUsername blankGame))),
       ("info", .vstr (getUserInfo blankGame stalePacket.username))] :=
  ⟨(check_update_payload_contract blankGame matchPacket).1 (by decide),
   ((check_update_payload_contract blankGame stalePacket).2 (by decide)).1⟩

/-- C3: on a `state_hash` mismatch, `Client._apply_update`
(src/logic/client.py; src/tictactoe/client.py is identical) replaces the
cached mapping wholesale by the response payload — no field of the old
cache survives — and, with an `on_game_state` callback registered, invokes
it exactly once. -/
theorem apply_update_replaces_on_mismatch (cache : Payload) (cb : Bool) (r : Resp)
    (h : pyGet r.payload "state_hash" ≠ pyGet cache "state_hash") :
    (applyUpdate cache cb r).1 = r.payload ∧
    applyUpdate cache true r = (r.payload, 1) := by
  constructor
  · simp [applyUpdate, h]
  · simp [applyUpdate, h]

/-- Witness for C3: the blank server's full-snapshot response replaces the
initial cache and fires the callback once. -/
theorem apply_update_replaces_on_mismatch_witness :
    (applyUpdate initCache true fullResp).1 = fullResp.payload ∧
    applyUpdate initCache true fullResp = (fullResp.payload, 1) :=
  apply_update_replaces_on_mismatch initCache true fullResp (by decide)

/-- C4 counterexample: a response with no `state_hash` at all, applied by
`Client._apply_update` (src/logic/client.py) to the initial cache, does NOT
keep the previous cache: the anomalous payload replaces it (and the
registered callback even fires), refuting the claim that the cache is only
kept and the anomaly logged. -/
theorem apply_update_anomaly_counterexample :
    pyGet anomalousResp.payload "state_hash" = .vnone ∧
    (applyUpdate initCache true anomalousResp).1 ≠ initCache ∧
    applyUpdate initCache true anomalousResp = (anomalousResp.payload, 1) := by
  decide

/-- C4 amended: only the chat `GameWidget.on_heartbeat`
(src/mousefox/examples/chat.py) keeps the previous cache on a missing or
falsy server fingerprint; `Client._apply_update` (src/logic/client.py)
instead replaces the cache with the anomalous payload whenever the falsy
fingerprint differs from the cached one, merely logging a warning. -/
theorem falsy_hash_handling (data cache : Payload) (cb : Bool) (r r2 : Resp) :
    ((pyGet r2.payload "update_hash").pyTruthy = false →
      chatOnHeartbeat data r2 = (data, 0)) ∧
    ((pyGet r.payload "state_hash").pyTruthy = false →
      pyGet r.payload "state_hash" ≠ pyGet cache "state_hash" →
      applyUpdate cache cb r = (r.payload, if cb then 1 else 0)) := by
  constructor
  · intro h
    simp [chatOnHeartbeat, h]
  · intro _ h2
    simp [applyUpdate, h2]

/-- Witness for the amended C4: the hash-free response is kept by the chat
widget but replaces the logic client's cache. -/
theorem falsy_hash_handling_witness :
    chatOnHeartbeat initCache anomalousResp = (initCache, 0) ∧
    applyUpdate initCache true anomalousResp = (anomalousResp.payload, 1) :=
  ⟨(falsy_hash_handling initCache initCache true anomalousResp anomalousResp).1
     (by decide),
   (falsy_hash_handling initCache initCache true anomalousResp anomalousResp).2
     (by decide) (by decide)⟩

/-- C5 counterexample: with one `check_update` already outstanding in the
dispatcher queue, a heartbeat tick (src/logic/client.py lines 52-56) still
sends a second `check_update` — the tick is queued, not skipped, so two
heartbeat checks are outstanding at once. -/
theorem heartbeat_tick_counterexample :
    pendingChecks hbOutstanding.queue = 1 ∧
    pendingChecks (heartbeatTick hbOutstanding).queue = 2 ∧
    ¬ pendingChecks (heartbeatTick hbOutstanding).queue ≤ 1 ∧
    pendingChecks ((heartbeatTick (heartbeatTick hbIdle)).queue) = 2 := by
  decide

/-- C5 amended: every heartbeat tick that fires while connected and in a
game sends a fresh `check_update` request to the front of the dispatcher
queue (`do_next=True`), regardless of how many checks are already
outstanding; nothing in the loop tracks an awaited response. -/
theorem heartbeat_tick_always_sends (s : HBState)
    (hc : s.connected = true) (hg : s.game.isSome = true) :
    (heartbeatTick s).queue = checkUpdatePacket s.cache :: s.queue := by
  simp [heartbeatTick, hc, hg, dispatcherSend]

/-- Witness for the amended C5: a tick on the state with one outstanding
check pushes a second check onto the queue. -/
theorem heartbeat_tick_always_sends_witness :
    (heartbeatTick hbOutstanding).queue =
      checkUpdatePacket hbOutstanding.cache :: hbOutstanding.queue :=
  heartbeat_tick_always_sends hbOutstanding (by decide) (by decide)

/-- C6 (bug): two reachable game states — a finished game, and the same
game after a spectator joins and leaves — have identical `_state_hash`
data (board, players, x_turn) yet differ in `in_progress` and in the full
`check_update` snapshot (`info`, `your_turn`), so equal fingerprints do
not imply equal observable state and a polling client is never told of the
change. -/
theorem state_hash_unsound :
    Reachable gameWon ∧ Reachable gameRejoined ∧
    stateHashData gameWon = stateHashData gameRejoined ∧
    gameWon.in_progress ≠ gameRejoined.in_progress ∧
    (checkUpdate gameWon stalePacket).2.payload ≠
      (checkUpdate gameRejoined stalePacket).2.payload := by
  have hAB : Reachable gameAB := .joined _ _ (.joined _ _ .init)
  have hWon : Reachable gameWon :=
    .played _ _ _ (by decide)
      (.played _ _ _ (by decide)
        (.played _ _ _ (by decide)
          (.played _ _ _ (by decide)
            (.played _ _ _ (by decide) hAB))))
  exact ⟨hWon, .left _ _ (.joined _ _ hWon), by decide, by decide, by decide⟩

/-- C7: every cache reachable in the client/server loop — the initial
sentinel cache, updated only by `Client._apply_update` on responses from
the server's `Game.check_update` — contains the `state_hash` key, and
`Client.check_update` itself never mutates the cache. -/
theorem cache_always_has_state_hash (c : Payload) (h : CacheReachable c) :
    (c.lookup "state_hash").isSome = true ∧ (clientCheckUpdate c).1 = c := by
  refine ⟨?_, rfl⟩
  induction h with
  | init => decide
  | applied c cb g packet _ ih =>
      rcases applyUpdate_fst c cb (checkUpdate g packet).2 with he | he
      · rw [he]; exact ih
      · rw [he]; exact checkUpdate_payload_has_hash g packet

/-- Witness for C7: the invariant evaluated at the initial cache. -/
theorem cache_always_has_state_hash_witness :
    (initCache.lookup "state_hash").isSome = true ∧
    (clientCheckUpdate initCache).1 = initCache :=
  cache_always_has_state_hash initCache .init

/-- C8: whatever the outcome of the transport connect, the event trace of
`Client.async_connect` (src/logic/client.py lines 47-50) ends with the
cancellation of the heartbeat task, and the heartbeat task is cancelled
once the trace has run. -/
theorem async_connect_cancels_heartbeat (success : Bool) :
    heartbeatCancelled (asyncConnectTrace success) = true ∧
    (asyncConnectTrace success).getLast? = some .heartbeatCancel := by
  cases success <;> exact ⟨rfl, rfl⟩

/-- C9: handling a `check_update` packet through `Game.handle_packet`
(src/logic/game.py) leaves every field of the game unchanged — the
heartbeat check is a pure read of server state. -/
theorem handle_check_update_pure (g : TGame) (p : Packet)
    (h : p.message = "check_update") :
    (handlePacket g p).1 = g := by
  by_cases hm : pyGet p.payload "state_hash" = .vhash (stateHashData g)
  · simp [handlePacket, h, checkUpdate, hm]
  · simp [handlePacket, h, checkUpdate, hm]

/-- Witness for C9: the stale heartbeat packet leaves the blank game
untouched. -/
theorem handle_check_update_pure_witness :
    (handlePacket blankGame stalePacket).1 = blankGame :=
  handle_check_update_pure blankGame stalePacket (by decide)

/-- C10: when a chat heartbeat's hash differs from the server digest, the
response's `messages` entry is exactly the serialization, in log order, of
`message_log[-50:]` — never more than 50 messages, and a suffix of the
serialized log. -/
theorem chat_heartbeat_truncates (g : ChatGame) (p : Packet)
    (h : pyGetD p.payload "update_hash" (.vint (-1)) ≠
      .vchash (chatUpdateHashData g)) :
    (chatHandleHeartbeat g p).2.payload.lookup "messages" =
      some (.vmsgs ((g.message_log.map Message.serialize).drop
        (g.message_log.length - 50))) ∧
    ((g.message_log.map Message.serialize).drop
        (g.message_log.length - 50)).length ≤ 50 ∧
    ((g.message_log.map Message.serialize).drop (g.message_log.length - 50)) <:+
      (g.message_log.map Message.serialize) := by
  refine ⟨?_, ?_, List.drop_suffix _ _⟩
  · simp [chatHandleHeartbeat, h, List.lookup, List.map_drop]
  · simp only [List.length_drop, List.length_map]
    omega

/-- Witness for C10: a chat room with a two-message log answers a stale
heartbeat with both messages serialized in order. -/
theorem chat_heartbeat_truncates_witness :
    (chatHandleHeartbeat chatRoom chatStalePacket).2.payload.lookup "messages" =
      some (.vmsgs ((chatRoom.message_log.map Message.serialize).drop
        (chatRoom.message_log.length - 50))) ∧
    ((chatRoom.message_log.map Message.serialize).drop
        (chatRoom.message_log.length - 50)).length ≤ 50 ∧
    ((chatRoom.message_log.map Message.serialize).drop
        (chatRoom.message_log.length - 50)) <:+
      (chatRoom.message_log.map Message.serialize) :=
  chat_heartbeat_truncates chatRoom chatStalePacket (by decide)

end Mousefox
